import Mathlib

/-
Shallow embedding of the Free Sleep Home Assistant integration
(custom_components/free_sleep), covering the API client's alarm update
(api.py, FreeSleepApi.set_alarm), the data container and its derivation
helpers (coordinator.py, FreeSleepData), and the refresh cycle
(coordinator.py, FreeSleepCoordinator._async_update_data).

Modelling conventions:
- JSON payloads exchanged with the HTTP service are modelled by the
  inductive type JVal; Python dictionaries are association lists with
  first-match lookup (Python dicts have unique keys, so this is faithful).
- Python expressions that can raise are modelled in the Except PyErr monad;
  a caught exception is modelled at its catch site (so code inside a
  try/except that is fully absorbed appears as an Option or a default).
- datetimes are modelled at minute granularity in the single configured
  timezone: LocalDT carries a civil day number (days since 1970-01-01)
  plus local wall-clock hour and minute.  homeassistant's dt_util
  parse_datetime is an external collaborator and is passed in as an
  explicit function argument of type String -> Option LocalDT.
- Evaluation time (dt_util.now in the source) is passed explicitly.
-/

namespace FreeSleep

/-- JSON-like values exchanged with the Free Sleep HTTP service and held
in the nested dictionaries of FreeSleepData. -/
inductive JVal where
  | null : JVal
  | bool : Bool → JVal
  | num : Int → JVal
  | str : String → JVal
  | obj : List (String × JVal) → JVal
  | arr : List JVal → JVal

/-- Python exceptions that can escape the modelled code. -/
inductive PyErr where
  | attributeError : PyErr
  | valueError : PyErr

/-- First-match lookup in an association list keyed by strings; this is
dictionary lookup for Python dicts (whose keys are unique). -/
def lookupKey {α : Type} (d : List (String × α)) (k : String) : Option α :=
  (d.find? (fun p => p.1 == k)).map Prod.snd

/-- Python d.get(key, default): returns the value stored under the key, or
the default when the key is absent; calling .get on a non-dictionary value
raises AttributeError. -/
def JVal.getD : JVal → String → JVal → Except PyErr JVal
  | .obj fs, k, d => .ok ((lookupKey fs k).getD d)
  | _, _, _ => .error .attributeError

/-- Python truthiness of a JSON value: None, False, 0, empty string, empty
dict and empty list are falsy, everything else truthy. -/
def JVal.truthy : JVal → Bool
  | .null => false
  | .bool b => b
  | .num n => n != 0
  | .str s => !(s == "")
  | .obj fs => !fs.isEmpty
  | .arr xs => !xs.isEmpty

/-- Python equality of a JSON value with a string literal (as used by the
membership test status in a tuple of string literals): only a string with
the same characters compares equal. -/
def JVal.isStr : JVal → String → Bool
  | .str t, s => t == s
  | _, _ => false

/-- Value of a list of ASCII decimal digits, or none when the list is empty
or contains a non-digit character. -/
def digitsVal (cs : List Char) : Option Nat :=
  if cs.isEmpty then none
  else if cs.all Char.isDigit then
    some (cs.foldl (fun a c => a * 10 + (c.toNat - 48)) 0)
  else none

/-- ASCII whitespace stripped by Python int(). -/
def pySpace (c : Char) : Bool :=
  c == ' ' || c == '\t' || c == '\n' || c == '\r' || c == '\x0b' || c == '\x0c'

/-- Strip leading and trailing whitespace from a character list. -/
def trimChars (cs : List Char) : List Char :=
  ((cs.dropWhile pySpace).reverse.dropWhile pySpace).reverse

/-- Python int(s) on a decimal string: surrounding whitespace is stripped,
a single leading sign is allowed, then one or more digits; none models a
raised ValueError.  (Python's underscore digit grouping and non-ASCII
digits are not modelled.) -/
def pyInt? (s : String) : Option Int :=
  match trimChars s.data with
  | [] => none
  | c :: rest =>
    if c == '-' then (digitsVal rest).map (fun n => -(n : Int))
    else if c == '+' then (digitsVal rest).map (fun n => (n : Int))
    else (digitsVal (c :: rest)).map (fun n => (n : Int))

/-- Python s.split(sep) for a single-character separator: the empty string
gives one empty part; every occurrence of the separator starts a new
part. -/
def splitOnChar (sep : Char) : List Char → List (List Char)
  | [] => [[]]
  | c :: rest =>
    let r := splitOnChar sep rest
    if c == sep then [] :: r
    else
      match r with
      | h :: t => (c :: h) :: t
      | [] => [[c]]

/-- The try-block of next_alarm_datetime: parts = time_str.split(":");
hour, minute = int(parts[0]), int(parts[1]).  none models a ValueError or
IndexError caught by the surrounding except clause. -/
def timeParts (s : String) : Option (Int × Int) :=
  match splitOnChar ':' s.data with
  | p0 :: p1 :: _ =>
    match pyInt? p0.asString, pyInt? p1.asString with
    | some h, some m => some (h, m)
    | _, _ => none
  | _ => none

/-- Python str.title(): the first character of every alphabetic run is
uppercased and the following alphabetic characters are lowercased. -/
def pyTitle (s : String) : String :=
  (s.data.foldl
    (fun (acc : List Char × Bool) c =>
      if c.isAlpha then
        (acc.1 ++ [if acc.2 then c.toLower else c.toUpper], true)
      else
        (acc.1 ++ [c], false))
    ([], false)).1.asString

/-- A timezone-aware datetime at minute granularity in the single
configured timezone: days is the civil day number (days since 1970-01-01)
and hour/minute the local wall-clock time. -/
structure LocalDT where
  days : Int
  hour : Nat
  minute : Nat

/-- Position of a LocalDT on the timeline, in minutes; datetime comparison
in the source is comparison of these positions. -/
def LocalDT.toMin (t : LocalDT) : Int :=
  t.days * 1440 + t.hour * 60 + t.minute

/-- Python datetime + timedelta(days=n): wall-clock time is kept, the
civil date advances by n days. -/
def LocalDT.addDays (t : LocalDT) (n : Int) : LocalDT :=
  { t with days := t.days + n }

/-- Python datetime.weekday(): Monday is 0 ... Sunday is 6.  Day number 0
(1970-01-01) was a Thursday, hence the offset 3. -/
def LocalDT.weekday (t : LocalDT) : Nat :=
  ((t.days + 3) % 7).toNat

/-- coordinator.py DAYS_OF_WEEK: weekday names indexed by
datetime.weekday(). -/
def DAYS_OF_WEEK : List String :=
  ["monday", "tuesday", "wednesday", "thursday", "friday", "saturday", "sunday"]

/-- coordinator.py SIDES. -/
def SIDES : List String := ["left", "right"]

/-- Write-through of one key into a Python dictionary: an existing entry is
overwritten in place, a new key is appended (Python dicts preserve
insertion order). -/
def dictInsert : List (String × JVal) → String → JVal → List (String × JVal)
  | [], k, v => [(k, v)]
  | (k0, v0) :: rest, k, v =>
    if k0 == k then (k0, v) :: rest
    else (k0, v0) :: dictInsert rest k v

/-- Python d.update(u): every entry of u is written into d in order. -/
def dictUpdate (d u : List (String × JVal)) : List (String × JVal) :=
  u.foldl (fun acc p => dictInsert acc p.1 p.2) d

/-- Left-biased choice on options, used to state the merge frame law. -/
def orElseD {α : Type} : Option α → Option α → Option α
  | some v, _ => some v
  | none, b => b

/-- FreeSleepApi.set_alarm, merge step: merged = dict(current_alarm or
empty dict), followed by merged.update(alarm_data).  A current_alarm of
None (or an empty dict, which is falsy) starts from the empty dict. -/
def set_alarm_merged (alarm_data : List (String × JVal))
    (current_alarm : Option (List (String × JVal))) : List (String × JVal) :=
  dictUpdate (current_alarm.getD []) alarm_data

/-- FreeSleepApi.set_alarm: the full JSON payload submitted to
set_schedules, nesting the merged alarm record under side / day / alarm. -/
def set_alarm_payload (side day : String) (alarm_data : List (String × JVal))
    (current_alarm : Option (List (String × JVal))) : JVal :=
  .obj [(side, .obj [(day, .obj [("alarm",
    .obj (set_alarm_merged alarm_data current_alarm))])])]

/-- coordinator.py FreeSleepData: container for all Free Sleep data of one
refresh cycle.  vitals_summary and last_sleep are the plain Python dicts
built by the coordinator (keyed by side). -/
structure FreeSleepData where
  device_status : JVal
  settings : JVal
  presence : JVal
  schedules : JVal
  services : JVal
  vitals_summary : List (String × JVal)
  last_sleep : List (String × Option JVal)
  server_status : JVal

/-- FreeSleepData.side_status: device_status.get(side, empty dict). -/
def FreeSleepData.side_status (d : FreeSleepData) (side : String) :
    Except PyErr JVal :=
  d.device_status.getD side (.obj [])

/-- FreeSleepData.water_level: device_status.get(waterLevel,
defaulting to the string unknown). -/
def FreeSleepData.water_level (d : FreeSleepData) : Except PyErr JVal :=
  d.device_status.getD "waterLevel" (.str "unknown")

/-- FreeSleepData.side_settings: settings.get(side, empty dict). -/
def FreeSleepData.side_settings (d : FreeSleepData) (side : String) :
    Except PyErr JVal :=
  d.settings.getD side (.obj [])

/-- FreeSleepData._today_key: day-of-week key for the next alarm, with
noon-crossover: from noon onwards the target day is tomorrow, otherwise
today.  The evaluation time (dt_util.now in the source) is explicit. -/
def today_key (now : LocalDT) : String :=
  let target := if now.hour ≥ 12 then now.addDays 1 else now
  DAYS_OF_WEEK.getD target.weekday ""

/-- FreeSleepData.today_alarm: schedules.get(side).get(today_key).get(alarm),
each step defaulting to the empty dict. -/
def FreeSleepData.today_alarm (d : FreeSleepData) (now : LocalDT)
    (side : String) : Except PyErr JVal := do
  let sideSched ← d.schedules.getD side (.obj [])
  let daySched ← sideSched.getD (today_key now) (.obj [])
  daySched.getD "alarm" (.obj [])

/-- FreeSleepData.alarm_override:
side_settings(side).get(scheduleOverrides).get(alarm), defaulting to the
empty dict. -/
def FreeSleepData.alarm_override (d : FreeSleepData) (side : String) :
    Except PyErr JVal := do
  let ss ← d.side_settings side
  let so ← ss.getD "scheduleOverrides" (.obj [])
  so.getD "alarm" (.obj [])

/-- FreeSleepData.temp_schedule_override:
side_settings(side).get(scheduleOverrides).get(temperatureSchedules). -/
def FreeSleepData.temp_schedule_override (d : FreeSleepData) (side : String) :
    Except PyErr JVal := do
  let ss ← d.side_settings side
  let so ← ss.getD "scheduleOverrides" (.obj [])
  so.getD "temperatureSchedules" (.obj [])

/-- Shared body of is_alarm_disabled_tonight and
is_temp_schedule_disabled_tonight once the override dict is in hand: the
override is active only when its disabled field is truthy, its expiresAt
is a truthy value, and parsing expiresAt yields a datetime strictly after
now.  parse_datetime on a non-string raises TypeError, which the source
catches and turns into False; a parse returning None is also False. -/
def override_disabled_check (parse : String → Option LocalDT) (now : LocalDT)
    (override : JVal) : Except PyErr Bool := do
  let dis ← override.getD "disabled" (.bool false)
  if !dis.truthy then
    pure false
  else do
    let ea ← override.getD "expiresAt" (.str "")
    if !ea.truthy then
      pure false
    else
      match ea with
      | .str s =>
        match parse s with
        | none => pure false
        | some expires => pure (decide (now.toMin < expires.toMin))
      | _ => pure false

/-- FreeSleepData.is_alarm_disabled_tonight. -/
def FreeSleepData.is_alarm_disabled_tonight (d : FreeSleepData)
    (parse : String → Option LocalDT) (now : LocalDT) (side : String) :
    Except PyErr Bool := do
  let ov ← d.alarm_override side
  override_disabled_check parse now ov

/-- FreeSleepData.is_temp_schedule_disabled_tonight. -/
def FreeSleepData.is_temp_schedule_disabled_tonight (d : FreeSleepData)
    (parse : String → Option LocalDT) (now : LocalDT) (side : String) :
    Except PyErr Bool := do
  let ov ← d.temp_schedule_override side
  override_disabled_check parse now ov

/-- FreeSleepData.next_alarm_datetime.  The int-parsing of the time string
sits inside a try/except (modelled by timeParts), but the final
datetime(...) constructor call does not: constructing a datetime with an
out-of-range hour or minute raises an uncaught ValueError.  Calling
.split on a truthy non-string time value raises an uncaught
AttributeError. -/
def FreeSleepData.next_alarm_datetime (d : FreeSleepData)
    (parse : String → Option LocalDT) (now : LocalDT) (side : String) :
    Except PyErr (Option LocalDT) := do
  let alarm ← d.today_alarm now side
  let en ← alarm.getD "enabled" (.bool false)
  if !en.truthy then
    pure none
  else do
    let dis ← d.is_alarm_disabled_tonight parse now side
    if dis then
      pure none
    else do
      let ts ← alarm.getD "time" (.str "")
      if !ts.truthy then
        pure none
      else
        match ts with
        | .str s =>
          match timeParts s with
          | none => pure none
          | some (h, m) =>
            let targetDays := if now.hour ≥ 12 then now.days + 1 else now.days
            if 0 ≤ h ∧ h < 24 ∧ 0 ≤ m ∧ m < 60 then
              pure (some { days := targetDays, hour := h.toNat, minute := m.toNat })
            else
              .error .valueError
        | _ => .error .attributeError

/-- FreeSleepData.side_vitals_summary: vitals_summary.get(side, empty
dict). -/
def FreeSleepData.side_vitals_summary (d : FreeSleepData) (side : String) :
    JVal :=
  (lookupKey d.vitals_summary side).getD (.obj [])

/-- FreeSleepData.side_last_sleep: last_sleep.get(side); a missing key and
a stored None both give None. -/
def FreeSleepData.side_last_sleep (d : FreeSleepData) (side : String) :
    Option JVal :=
  (lookupKey d.last_sleep side).getD none

/-- FreeSleepData.seconds_remaining: side_status(side).get(secondsRemaining,
defaulting to 0). -/
def FreeSleepData.seconds_remaining (d : FreeSleepData) (side : String) :
    Except PyErr JVal := do
  let ss ← d.side_status side
  ss.getD "secondsRemaining" (.num 0)

/-- FreeSleepData.gain: device_status.get(settings).get(gain + titled side,
defaulting to 100). -/
def FreeSleepData.gain (d : FreeSleepData) (side : String) :
    Except PyErr JVal := do
  let st ← d.device_status.getD "settings" (.obj [])
  st.getD ("gain" ++ pyTitle side) (.num 100)

/-- coordinator.py critical service names checked by is_server_healthy. -/
def criticalServices : List String :=
  ["franken", "database", "biometricsStream"]

/-- FreeSleepData.server_service_status: server_status.get(name, empty
dict). -/
def FreeSleepData.server_service_status (d : FreeSleepData) (name : String) :
    Except PyErr JVal :=
  d.server_status.getD name (.obj [])

/-- Loop body of FreeSleepData.is_server_healthy over the list of critical
services: the first critical service whose status is the string failed or
the string not_started makes the rollup False. -/
def healthLoop (d : FreeSleepData) : List String → Except PyErr Bool
  | [] => pure true
  | svc :: rest => do
    let entry ← d.server_service_status svc
    let status ← entry.getD "status" (.str "unknown")
    if status.isStr "failed" || status.isStr "not_started" then
      pure false
    else
      healthLoop d rest

/-- FreeSleepData.is_server_healthy. -/
def FreeSleepData.is_server_healthy (d : FreeSleepData) : Except PyErr Bool :=
  healthLoop d criticalServices

/-- Spec-side view of the status the health rollup sees for a subsystem:
the status field of the subsystem's entry, or the string unknown when the
entry or its status field is absent.  Used only to state the health
characterisation. -/
def specHealthStatus (l : List (String × JVal)) (svc : String) : JVal :=
  match lookupKey l svc with
  | some (.obj fs) => (lookupKey fs "status").getD (.str "unknown")
  | _ => .str "unknown"

/-- Errors raised by the API client: FreeSleepApiError for a non-2xx
response (protocol failure) and its subclass FreeSleepConnectionError for
a transport failure. -/
inductive ApiErr where
  | apiError : ApiErr
  | connectionError : ApiErr

/-- The homeassistant UpdateFailed error raised by the coordinator when a
refresh cycle fails. -/
inductive UpdateErr where
  | updateFailed : UpdateErr

/-- Outcome of every fetch issued during one refresh cycle: the six core
fetches awaited by asyncio.gather, and the per-side vitals and sleep
fetches (whose exceptions of any kind are absorbed, modelled by PyErr). -/
structure FetchResults where
  device_status : Except ApiErr JVal
  settings : Except ApiErr JVal
  presence : Except ApiErr JVal
  schedules : Except ApiErr JVal
  services : Except ApiErr JVal
  server_status : Except ApiErr JVal
  vitals : String → Except PyErr JVal
  sleep : String → Except PyErr (List JVal)

/-- FreeSleepCoordinator._async_update_data: the six gathered fetches must
all succeed (asyncio.gather propagates the first FreeSleepApiError, which
the surrounding except clause converts to UpdateFailed); the per-side
vitals and sleep fetches are each wrapped in try/except and a failure is
replaced by an empty dict and None respectively.  The last element of the
sleep-record list is retained; an empty list gives None. -/
def async_update_data (fr : FetchResults) : Except UpdateErr FreeSleepData :=
  match fr.device_status, fr.settings, fr.presence, fr.schedules,
        fr.services, fr.server_status with
  | .ok ds, .ok st, .ok pr, .ok sc, .ok sv, .ok ss =>
    .ok {
      device_status := ds
      settings := st
      presence := pr
      schedules := sc
      services := sv
      vitals_summary := SIDES.map (fun side =>
        (side, match fr.vitals side with
               | .ok v => v
               | .error _ => .obj []))
      last_sleep := SIDES.map (fun side =>
        (side, match fr.sleep side with
               | .ok recs => recs.getLast?
               | .error _ => none))
      server_status := ss }
  | _, _, _, _, _, _ => .error .updateFailed

/-- Alarm record from the specification's merge-before-write example. -/
def exCurrentAlarm : List (String × JVal) :=
  [("enabled", .bool true), ("time", .str "06:30"),
   ("vibrationIntensity", .num 80), ("vibrationPattern", .str "rise"),
   ("duration", .num 10), ("alarmTemperature", .num 82)]

/-- Example snapshot used by the witnesses: the left side has an active
alarm override expiring in 2099, an inactive temperature-schedule
override, and an enabled 06:30 alarm on friday. -/
def overrideExampleData : FreeSleepData :=
  { device_status := .obj []
    settings := .obj [("left", .obj [("scheduleOverrides", .obj
      [("alarm", .obj [("disabled", .bool true),
                       ("expiresAt", .str "2099-01-01T00:00:00+00:00")]),
       ("temperatureSchedules", .obj [("disabled", .bool false),
                                      ("expiresAt", .str "")])])])]
    presence := .obj []
    schedules := .obj [("left", .obj [("friday", .obj [("alarm", .obj
      [("enabled", .bool true), ("time", .str "06:30")])])])]
    services := .obj []
    vitals_summary := []
    last_sleep := []
    server_status := .obj [] }

/-- Example stand-in for the external ISO-8601 parser: recognises exactly
the expiry string of overrideExampleData, as a far-future instant. -/
def overrideExampleParse : String → Option LocalDT :=
  fun s =>
    if s == "2099-01-01T00:00:00+00:00" then
      some { days := 47000, hour := 0, minute := 0 }
    else none

/-- Example evaluation time: 1970-01-01 (day number 0, a Thursday) at
13:00 local, so the noon-crossover target day is friday. -/
def exNow : LocalDT := { days := 0, hour := 13, minute := 0 }

/-- Snapshot whose friday alarm stores the time string 25:00, whose parts
int-parse but are out of range for the datetime constructor. -/
def outOfRangeHourData : FreeSleepData :=
  { overrideExampleData with
    settings := .obj []
    schedules := .obj [("left", .obj [("friday", .obj [("alarm", .obj
      [("enabled", .bool true), ("time", .str "25:00")])])])] }

/-- Snapshot whose thursday alarm stores the time string 06:99 (minute out
of range). -/
def outOfRangeMinuteData : FreeSleepData :=
  { overrideExampleData with
    settings := .obj []
    schedules := .obj [("left", .obj [("thursday", .obj [("alarm", .obj
      [("enabled", .bool true), ("time", .str "06:99")])])])] }

/-- Snapshot whose server health resource reports only a running primary
controller; the other critical subsystems are absent. -/
def serverExampleData : FreeSleepData :=
  { overrideExampleData with
    server_status := .obj [("franken", .obj [("status", .str "running")])] }

/-- Fetch results in which the six core fetches succeed with empty
resources, every vitals fetch fails, and the sleep fetch succeeds with two
records on the left and fails on the right. -/
def fetchExample : FetchResults :=
  { device_status := .ok (.obj [])
    settings := .ok (.obj [])
    presence := .ok (.obj [])
    schedules := .ok (.obj [])
    services := .ok (.obj [])
    server_status := .ok (.obj [])
    vitals := fun _ => .error .attributeError
    sleep := fun side =>
      if side == "left" then
        .ok [.obj [("id", .num 1)], .obj [("id", .num 2)]]
      else .error .attributeError }

/-- The snapshot that a refresh cycle over fetchExample produces. -/
def snapshotExample : FreeSleepData :=
  { device_status := .obj []
    settings := .obj []
    presence := .obj []
    schedules := .obj []
    services := .obj []
    vitals_summary := [("left", .obj []), ("right", .obj [])]
    last_sleep := [("left", some (.obj [("id", .num 2)])), ("right", none)]
    server_status := .obj [] }

/-- fetchExample with the server-health fetch failing with a protocol
error. -/
def fetchServerFail : FetchResults :=
  { fetchExample with server_status := .error .apiError }

/-- fetchExample with the server-health fetch failing with a transport
error. -/
def fetchServerFailConn : FetchResults :=
  { fetchExample with server_status := .error .connectionError }

/-- Snapshot assembled from explicit resource association lists; used to
state totality of the accessors over snapshots with missing keys. -/
def mkData (dsl stl prl scl svl ssl : List (String × JVal))
    (vsl : List (String × JVal)) (lsl : List (String × Option JVal)) :
    FreeSleepData :=
  { device_status := .obj dsl
    settings := .obj stl
    presence := .obj prl
    schedules := .obj scl
    services := .obj svl
    vitals_summary := vsl
    last_sleep := lsl
    server_status := .obj ssl }

theorem lookupKey_nil {α : Type} (k : String) :
    lookupKey ([] : List (String × α)) k = none := rfl

theorem lookupKey_cons {α : Type} (k1 : String) (v1 : α)
    (rest : List (String × α)) (k : String) :
    lookupKey ((k1, v1) :: rest) k = if k1 = k then some v1 else lookupKey rest k := by
  by_cases h : k1 = k <;> simp [lookupKey, List.find?_cons, h]

theorem lookupKey_eq_none_of_not_mem {α : Type} (u : List (String × α))
    (k : String) (h : k ∉ u.map Prod.fst) : lookupKey u k = none := by
  induction u with
  | nil => rfl
  | cons p rest ih =>
    obtain ⟨k1, v1⟩ := p
    simp only [List.map_cons, List.mem_cons, not_or] at h
    rw [lookupKey_cons, if_neg (fun he => h.1 he.symm)]
    exact ih h.2

theorem lookupKey_dictInsert (d : List (String × JVal)) (k0 : String)
    (v : JVal) (k : String) :
    lookupKey (dictInsert d k0 v) k = if k0 = k then some v else lookupKey d k := by
  induction d with
  | nil =>
    by_cases h : k0 = k
    · simp [dictInsert, lookupKey, List.find?, beq_iff_eq, h]
    · have hb : (k0 == k) = false := beq_eq_false_iff_ne.mpr h
      simp [dictInsert, lookupKey, List.find?, hb, h]
  | cons p rest ih =>
    obtain ⟨k1, v1⟩ := p
    by_cases h1 : k1 = k0
    · subst h1
      rw [show dictInsert ((k1, v1) :: rest) k1 v = (k1, v) :: rest by
            simp [dictInsert]]
      rw [lookupKey_cons, lookupKey_cons]
      by_cases h : k1 = k <;> simp [h]
    · rw [show dictInsert ((k1, v1) :: rest) k0 v
            = (k1, v1) :: dictInsert rest k0 v by simp [dictInsert, h1]]
      rw [lookupKey_cons, lookupKey_cons, ih]
      by_cases h : k1 = k <;> by_cases h2 : k0 = k
      · exact absurd (h.trans h2.symm) h1
      · simp [h, h2]
      · simp [h, h2]
      · simp [h, h2]

theorem lookupKey_dictUpdate (d u : List (String × JVal)) (k : String)
    (hu : (u.map Prod.fst).Nodup) :
    lookupKey (dictUpdate d u) k
      = orElseD (lookupKey u k) (lookupKey d k) := by
  induction u generalizing d with
  | nil => simp [dictUpdate, orElseD, lookupKey]
  | cons p rest ih =>
    obtain ⟨k0, v0⟩ := p
    simp only [List.map_cons, List.nodup_cons] at hu
    rw [show dictUpdate d ((k0, v0) :: rest)
          = dictUpdate (dictInsert d k0 v0) rest from rfl]
    rw [ih _ hu.2, lookupKey_cons, lookupKey_dictInsert]
    by_cases h : k0 = k
    · subst h
      rw [lookupKey_eq_none_of_not_mem rest k0 hu.1]
      simp [orElseD]
    · rw [if_neg h, if_neg h]

/-- C1: for every side, day and partial alarm update, the payload submitted
by set_alarm nests, under side / day / alarm, exactly the merge of the
update onto the current alarm record: a field named in the update carries
its new value, every field of the current record not named in the update
is unchanged, and no field is dropped. -/
theorem set_alarm_merge_frame (side day : String)
    (alarm_data : List (String × JVal))
    (current_alarm : Option (List (String × JVal)))
    (hu : (alarm_data.map Prod.fst).Nodup) :
    set_alarm_payload side day alarm_data current_alarm =
      .obj [(side, .obj [(day, .obj [("alarm",
        .obj (set_alarm_merged alarm_data current_alarm))])])] ∧
    ∀ k, lookupKey (set_alarm_merged alarm_data current_alarm) k =
      orElseD (lookupKey alarm_data k) (lookupKey (current_alarm.getD []) k) :=
  ⟨rfl, fun k => lookupKey_dictUpdate _ _ k hu⟩

/-- Witness for C1 on the specification's example: updating only duration
to 15 keeps every other field and replaces duration. -/
theorem set_alarm_merge_frame_witness :
    lookupKey (set_alarm_merged [("duration", .num 15)] (some exCurrentAlarm))
      "duration" = some (.num 15) ∧
    lookupKey (set_alarm_merged [("duration", .num 15)] (some exCurrentAlarm))
      "vibrationIntensity" = some (.num 80) := by
  have h := set_alarm_merge_frame "left" "monday" [("duration", .num 15)]
    (some exCurrentAlarm) (by decide)
  exact ⟨by rw [h.2 "duration"]; rfl, by rw [h.2 "vibrationIntensity"]; rfl⟩

/-- Weekday index advances by one modulo 7 when one calendar day is
added. -/
theorem weekday_addDays_one (t : LocalDT) :
    (t.addDays 1).weekday = (t.weekday + 1) % 7 := by
  simp only [LocalDT.addDays, LocalDT.weekday]
  omega

/-- C3: the active schedule day key equals the weekday name of now itself
when the local hour is below 12, and the weekday name of now plus one
calendar day from hour 12 onwards; in particular this holds at the
boundary times 11:59 and 12:00 of every weekday. -/
theorem today_key_noon_crossover (now : LocalDT) :
    today_key now =
      if now.hour < 12 then DAYS_OF_WEEK.getD now.weekday ""
      else DAYS_OF_WEEK.getD ((now.weekday + 1) % 7) "" := by
  by_cases h : now.hour ≥ 12
  · simp only [today_key, if_pos h, weekday_addDays_one,
      if_neg (show ¬now.hour < 12 by omega)]
  · simp only [today_key, if_neg h, if_pos (show now.hour < 12 by omega)]

theorem ok_bind {ε α β : Type} (a : α) (f : α → Except ε β) :
    (Except.ok a : Except ε α) >>= f = f a := rfl

theorem pure_eq_ok {ε α : Type} (a : α) :
    (pure a : Except ε α) = Except.ok a := rfl

theorem override_disabled_check_eq (parse : String → Option LocalDT)
    (now : LocalDT) (ov : JVal) (db : Bool) (s : String)
    (hdb : ov.getD "disabled" (.bool false) = .ok (.bool db))
    (hs : ov.getD "expiresAt" (.str "") = .ok (.str s)) :
    override_disabled_check parse now ov =
      .ok (db && !(s == "") &&
        (match parse s with
         | some expires => decide (now.toMin < expires.toMin)
         | none => false)) := by
  unfold override_disabled_check
  rw [hdb, ok_bind]
  cases db with
  | false => rfl
  | true =>
    rw [if_neg (by decide)]
    rw [hs, ok_bind]
    simp only [JVal.truthy, Bool.not_not]
    cases hse : s == "" with
    | true => simp [hse, pure_eq_ok]
    | false => cases hp : parse s <;> simp [hp, pure_eq_ok]

/-- C2: for every side and evaluation time, both override checks return,
without raising, True exactly when the override's disabled field is true,
its expiresAt is a non-empty string, and the parsed expiry lies strictly
after the evaluation time; a false disabled, an empty expiresAt, or a
parse failure gives False. -/
theorem override_checks_characterized (parse : String → Option LocalDT)
    (now : LocalDT) (d : FreeSleepData) (side : String) :
    (∀ ov db s, d.alarm_override side = .ok ov →
      ov.getD "disabled" (.bool false) = .ok (.bool db) →
      ov.getD "expiresAt" (.str "") = .ok (.str s) →
      d.is_alarm_disabled_tonight parse now side =
        .ok (db && !(s == "") &&
          (match parse s with
           | some expires => decide (now.toMin < expires.toMin)
           | none => false))) ∧
    (∀ ov db s, d.temp_schedule_override side = .ok ov →
      ov.getD "disabled" (.bool false) = .ok (.bool db) →
      ov.getD "expiresAt" (.str "") = .ok (.str s) →
      d.is_temp_schedule_disabled_tonight parse now side =
        .ok (db && !(s == "") &&
          (match parse s with
           | some expires => decide (now.toMin < expires.toMin)
           | none => false))) := by
  constructor
  · intro ov db s hov hdb hs
    unfold FreeSleepData.is_alarm_disabled_tonight
    rw [hov, ok_bind, override_disabled_check_eq parse now ov db s hdb hs]
  · intro ov db s hov hdb hs
    unfold FreeSleepData.is_temp_schedule_disabled_tonight
    rw [hov, ok_bind, override_disabled_check_eq parse now ov db s hdb hs]

/-- Witness for C2: on the example snapshot the alarm override (disabled,
far-future expiry) is active and the temperature-schedule override
(disabled false, empty expiry) is not. -/
theorem override_checks_characterized_witness :
    overrideExampleData.is_alarm_disabled_tonight overrideExampleParse
      { days := 0, hour := 13, minute := 0 } "left" = .ok true ∧
    overrideExampleData.is_temp_schedule_disabled_tonight overrideExampleParse
      { days := 0, hour := 13, minute := 0 } "left" = .ok false := by
  have h := override_checks_characterized overrideExampleParse
    { days := 0, hour := 13, minute := 0 } overrideExampleData "left"
  constructor
  · rw [h.1 (.obj [("disabled", .bool true),
        ("expiresAt", .str "2099-01-01T00:00:00+00:00")]) true
        "2099-01-01T00:00:00+00:00" rfl rfl rfl]
    rfl
  · rw [h.2 (.obj [("disabled", .bool false), ("expiresAt", .str "")]) false
        "" rfl rfl rfl]
    rfl

theorem next_alarm_compute (parse : String → Option LocalDT) (now : LocalDT)
    (d : FreeSleepData) (side : String) (af : List (String × JVal))
    (en : Bool) (ts : String) (dis : Bool)
    (halarm : d.today_alarm now side = .ok (.obj af))
    (hen : (JVal.obj af).getD "enabled" (.bool false) = .ok (.bool en))
    (hts : (JVal.obj af).getD "time" (.str "") = .ok (.str ts))
    (hdis : d.is_alarm_disabled_tonight parse now side = .ok dis) :
    d.next_alarm_datetime parse now side =
      if en = false then .ok none
      else if dis = true then .ok none
      else if ts = "" then .ok none
      else
        match timeParts ts with
        | none => .ok none
        | some (h, m) =>
          if 0 ≤ h ∧ h < 24 ∧ 0 ≤ m ∧ m < 60 then
            .ok (some { days := if now.hour ≥ 12 then now.days + 1 else now.days,
                        hour := h.toNat, minute := m.toNat })
          else .error .valueError := by
  unfold FreeSleepData.next_alarm_datetime
  rw [halarm, ok_bind, hen, ok_bind]
  cases en with
  | false => rfl
  | true =>
    rw [if_neg (show ¬(!JVal.truthy (.bool true)) = true by decide),
        if_neg (show ¬true = false by decide)]
    rw [hdis, ok_bind]
    cases dis with
    | true => rfl
    | false =>
      rw [if_neg (show ¬false = true by decide),
          if_neg (show ¬false = true by decide)]
      rw [hts, ok_bind]
      by_cases hse : ts = ""
      · subst hse
        rfl
      · rw [if_neg (show ¬(!JVal.truthy (.str ts)) = true by
              simp [JVal.truthy, hse]),
            if_neg hse]
        cases htp : timeParts ts <;> simp [htp, pure_eq_ok]

/-- C4 (amended): under well-shaped alarm data, next_alarm_datetime
returns an absent result exactly when the active entry's alarm enabled is
false, the alarm override is active, the time field is empty, or splitting
the time on a colon and int-parsing its first two parts fails; when the
parts parse and are in range (hour 0-23, minute 0-59) it returns the
noon-crossover calendar date, recomputed from now, combined with the
parsed HH:MM in the configured timezone; when the parts parse but are out
of range the call raises ValueError instead of returning. -/
theorem next_alarm_characterized (parse : String → Option LocalDT)
    (now : LocalDT) (d : FreeSleepData) (side : String)
    (af : List (String × JVal)) (en : Bool) (ts : String) (dis : Bool)
    (halarm : d.today_alarm now side = .ok (.obj af))
    (hen : (JVal.obj af).getD "enabled" (.bool false) = .ok (.bool en))
    (hts : (JVal.obj af).getD "time" (.str "") = .ok (.str ts))
    (hdis : d.is_alarm_disabled_tonight parse now side = .ok dis) :
    (d.next_alarm_datetime parse now side = .ok none ↔
      en = false ∨ dis = true ∨ ts = "" ∨ timeParts ts = none) ∧
    (∀ h m, timeParts ts = some (h, m) → en = true → dis = false →
      ((0 ≤ h ∧ h < 24 ∧ 0 ≤ m ∧ m < 60 →
        d.next_alarm_datetime parse now side =
          .ok (some { days := if now.hour ≥ 12 then now.days + 1 else now.days,
                      hour := h.toNat, minute := m.toNat })) ∧
       (¬(0 ≤ h ∧ h < 24 ∧ 0 ≤ m ∧ m < 60) →
        d.next_alarm_datetime parse now side = .error .valueError))) := by
  have hc := next_alarm_compute parse now d side af en ts dis halarm hen hts hdis
  constructor
  · rw [hc]
    cases en with
    | false => simp
    | true =>
      cases dis with
      | true => simp
      | false =>
        by_cases hts0 : ts = ""
        · simp [hts0]
        · cases htp : timeParts ts with
          | none => simp [htp, hts0]
          | some pm =>
            obtain ⟨h, m⟩ := pm
            by_cases hr : 0 ≤ h ∧ h < 24 ∧ 0 ≤ m ∧ m < 60 <;>
              simp [htp, hts0, hr]
  · intro h m htp hentrue hdisfalse
    subst hentrue
    subst hdisfalse
    have hts0 : ts ≠ "" := by
      intro he
      rw [he] at htp
      exact Option.noConfusion ((show timeParts "" = none from rfl) ▸ htp)
    constructor
    · intro hr
      rw [hc]
      simp [hts0, htp, hr]
    · intro hr
      rw [hc]
      simp [hts0, htp, hr]

/-- Counterexample to C4 as stated: an enabled friday alarm whose time
field is the string 25:00, with no active override, at 13:00 on a
Thursday; next_alarm_datetime neither returns an absent result nor a
timestamp: it raises an uncaught ValueError from the datetime
constructor. -/
theorem next_alarm_out_of_range_cex :
    outOfRangeHourData.next_alarm_datetime (fun _ => none) exNow "left" =
      .error .valueError := rfl

/-- Witness for C4 (amended), matching the specification's example: at
13:00 local on a Thursday, an enabled 06:30 friday alarm with no active
override yields Friday 06:30 local. -/
theorem next_alarm_characterized_witness :
    overrideExampleData.next_alarm_datetime (fun _ => none) exNow "left" =
      .ok (some { days := 1, hour := 6, minute := 30 }) := by
  have h := next_alarm_characterized (fun _ => none) exNow overrideExampleData
    "left" [("enabled", .bool true), ("time", .str "06:30")] true "06:30" false
    rfl rfl rfl rfl
  have h2 := (h.2 6 30 rfl rfl rfl).1 (by norm_num)
  rw [h2]
  rfl

/-- C5, evaluation at the failing input: a stored alarm time of 06:99
(minute parses but is out of range) makes next_alarm_datetime raise an
uncaught ValueError rather than return an absent result, contradicting
the never-fatal parse-failure policy; the int-parse sits inside the
try/except but the datetime constructor does not. -/
theorem next_alarm_raises_on_out_of_range_minute :
    outOfRangeMinuteData.next_alarm_datetime (fun _ => none)
      { days := 0, hour := 9, minute := 30 } "left" = .error .valueError := rfl

theorem healthLoop_cons (d : FreeSleepData) (l : List (String × JVal))
    (svc : String) (rest : List String)
    (hs : d.server_status = .obj l)
    (hsvc : lookupKey l svc = none ∨ ∃ fs, lookupKey l svc = some (.obj fs)) :
    healthLoop d (svc :: rest) =
      if !(specHealthStatus l svc).isStr "failed" &&
         !(specHealthStatus l svc).isStr "not_started"
      then healthLoop d rest
      else .ok false := by
  simp only [healthLoop, FreeSleepData.server_service_status]
  rw [hs]
  rcases hsvc with hn | ⟨fs, hsome⟩
  · rw [show (JVal.obj l).getD svc (.obj []) = .ok (.obj []) by
          simp [JVal.getD, hn]]
    rw [ok_bind]
    rw [show (JVal.obj []).getD "status" (.str "unknown")
          = .ok (.str "unknown") from rfl]
    rw [ok_bind]
    rw [show specHealthStatus l svc = .str "unknown" by
          simp [specHealthStatus, hn]]
    rfl
  · rw [show (JVal.obj l).getD svc (.obj []) = .ok (.obj fs) by
          simp [JVal.getD, hsome]]
    rw [ok_bind]
    rw [show (JVal.obj fs).getD "status" (.str "unknown")
          = .ok ((lookupKey fs "status").getD (.str "unknown")) from rfl]
    rw [ok_bind]
    rw [show specHealthStatus l svc
          = (lookupKey fs "status").getD (.str "unknown") by
          simp [specHealthStatus, hsome]]
    cases hf : ((lookupKey fs "status").getD (.str "unknown")).isStr "failed" <;>
      cases hns : ((lookupKey fs "status").getD (.str "unknown")).isStr "not_started" <;>
        simp [hf, hns, pure_eq_ok]

/-- C6: the health rollup never raises and is True exactly when none of
the three critical subsystems (franken, database, biometricsStream)
reports the status string failed or not_started; a subsystem entry absent
from the server-health resource counts as status unknown and so never
makes the rollup false, and an entry under any non-critical key never
affects the result. -/
theorem server_healthy_characterized (d : FreeSleepData)
    (l : List (String × JVal))
    (hs : d.server_status = .obj l)
    (h1 : lookupKey l "franken" = none ∨
          ∃ fs, lookupKey l "franken" = some (.obj fs))
    (h2 : lookupKey l "database" = none ∨
          ∃ fs, lookupKey l "database" = some (.obj fs))
    (h3 : lookupKey l "biometricsStream" = none ∨
          ∃ fs, lookupKey l "biometricsStream" = some (.obj fs)) :
    (d.is_server_healthy =
      .ok (criticalServices.all (fun svc =>
        !(specHealthStatus l svc).isStr "failed" &&
        !(specHealthStatus l svc).isStr "not_started"))) ∧
    (∀ k v (d2 : FreeSleepData), k ∉ criticalServices →
      d2.server_status = .obj ((k, v) :: l) →
      d2.is_server_healthy = d.is_server_healthy) := by
  constructor
  · rw [show d.is_server_healthy
        = healthLoop d ["franken", "database", "biometricsStream"] from rfl]
    rw [healthLoop_cons d l "franken" _ hs h1,
        healthLoop_cons d l "database" _ hs h2,
        healthLoop_cons d l "biometricsStream" _ hs h3]
    rw [show healthLoop d [] = .ok true from rfl]
    simp only [criticalServices, List.all_cons, List.all_nil, Bool.and_true]
    cases hA : (!(specHealthStatus l "franken").isStr "failed" &&
        !(specHealthStatus l "franken").isStr "not_started") <;>
      cases hB : (!(specHealthStatus l "database").isStr "failed" &&
          !(specHealthStatus l "database").isStr "not_started") <;>
        cases hC : (!(specHealthStatus l "biometricsStream").isStr "failed" &&
            !(specHealthStatus l "biometricsStream").isStr "not_started") <;>
          simp [hA, hB, hC]
  · intro k v d2 hk hs2
    simp only [criticalServices, List.mem_cons, List.mem_singleton,
      not_or] at hk
    have e1 : lookupKey ((k, v) :: l) "franken" = lookupKey l "franken" := by
      rw [lookupKey_cons, if_neg hk.1]
    have e2 : lookupKey ((k, v) :: l) "database" = lookupKey l "database" := by
      rw [lookupKey_cons, if_neg hk.2.1]
    have e3 : lookupKey ((k, v) :: l) "biometricsStream"
        = lookupKey l "biometricsStream" := by
      rw [lookupKey_cons, if_neg hk.2.2.1]
    have s1 : specHealthStatus ((k, v) :: l) "franken"
        = specHealthStatus l "franken" := by
      unfold specHealthStatus; rw [e1]
    have s2 : specHealthStatus ((k, v) :: l) "database"
        = specHealthStatus l "database" := by
      unfold specHealthStatus; rw [e2]
    have s3 : specHealthStatus ((k, v) :: l) "biometricsStream"
        = specHealthStatus l "biometricsStream" := by
      unfold specHealthStatus; rw [e3]
    rw [show d2.is_server_healthy
        = healthLoop d2 ["franken", "database", "biometricsStream"] from rfl]
    rw [show d.is_server_healthy
        = healthLoop d ["franken", "database", "biometricsStream"] from rfl]
    rw [healthLoop_cons d2 ((k, v) :: l) "franken" _ hs2 (by rw [e1]; exact h1),
        healthLoop_cons d2 ((k, v) :: l) "database" _ hs2 (by rw [e2]; exact h2),
        healthLoop_cons d2 ((k, v) :: l) "biometricsStream" _ hs2
          (by rw [e3]; exact h3)]
    rw [healthLoop_cons d l "franken" _ hs h1,
        healthLoop_cons d l "database" _ hs h2,
        healthLoop_cons d l "biometricsStream" _ hs h3]
    rw [show healthLoop d2 [] = .ok true from rfl,
        show healthLoop d [] = .ok true from rfl]
    rw [s1, s2, s3]

/-- Witness for C6: a server-health resource reporting only a running
primary controller (database and biometricsStream entries absent) rolls
up healthy. -/
theorem server_healthy_characterized_witness :
    serverExampleData.is_server_healthy = .ok true := by
  have h := server_healthy_characterized serverExampleData
    [("franken", .obj [("status", .str "running")])] rfl
    (Or.inr ⟨[("status", .str "running")], rfl⟩) (Or.inl rfl) (Or.inl rfl)
  rw [h.1]
  rfl

/-- C7: a failure of any of the five required fetches (device status,
settings, presence, schedules, services) fails the whole refresh with
UpdateFailed, producing no snapshot; a failing optional vitals or sleep
fetch is absorbed: a produced snapshot stores the empty dict for that
side's vitals summary and an absent last-sleep record, while a succeeding
optional fetch is passed through unchanged; when every gathered fetch
succeeds a snapshot is produced. -/
theorem refresh_partial_failure_tolerance (fr : FetchResults) :
    (∀ e : ApiErr,
      fr.device_status = .error e ∨ fr.settings = .error e ∨
      fr.presence = .error e ∨ fr.schedules = .error e ∨
      fr.services = .error e →
      async_update_data fr = .error .updateFailed) ∧
    (∀ d, async_update_data fr = .ok d →
      ∀ side, side ∈ SIDES →
        (∀ e, fr.vitals side = .error e →
          lookupKey d.vitals_summary side = some (.obj [])) ∧
        (∀ v, fr.vitals side = .ok v →
          lookupKey d.vitals_summary side = some v) ∧
        (∀ e, fr.sleep side = .error e →
          lookupKey d.last_sleep side = some none)) ∧
    ((∃ a, fr.device_status = .ok a) → (∃ a, fr.settings = .ok a) →
     (∃ a, fr.presence = .ok a) → (∃ a, fr.schedules = .ok a) →
     (∃ a, fr.services = .ok a) → (∃ a, fr.server_status = .ok a) →
     ∃ d, async_update_data fr = .ok d) := by
  refine ⟨?_, ?_, ?_⟩
  · intro e he
    unfold async_update_data
    split
    · rename_i ds st pr sc sv ss hds hst hpr hsc hsv hss
      rcases he with h | h | h | h | h <;>
        first
        | (rw [h] at hds; exact Except.noConfusion hds)
        | (rw [h] at hst; exact Except.noConfusion hst)
        | (rw [h] at hpr; exact Except.noConfusion hpr)
        | (rw [h] at hsc; exact Except.noConfusion hsc)
        | (rw [h] at hsv; exact Except.noConfusion hsv)
    · rfl
  · intro d hd side hside
    unfold async_update_data at hd
    split at hd
    · rename_i ds st pr sc sv ss hds hst hpr hsc hsv hss
      injection hd with hd2
      subst hd2
      simp only [SIDES, List.mem_cons, List.not_mem_nil, or_false] at hside
      rcases hside with hl | hr
      · subst hl
        refine ⟨?_, ?_, ?_⟩
        · intro e hv
          simp [SIDES, lookupKey_cons, hv]
        · intro v hv
          simp [SIDES, lookupKey_cons, hv]
        · intro e hsl
          simp [SIDES, lookupKey_cons, hsl]
      · subst hr
        refine ⟨?_, ?_, ?_⟩
        · intro e hv
          simp [SIDES, lookupKey_cons, hv]
        · intro v hv
          simp [SIDES, lookupKey_cons, hv]
        · intro e hsl
          simp [SIDES, lookupKey_cons, hsl]
    · exact Except.noConfusion hd
  · intro ⟨a1, e1⟩ ⟨a2, e2⟩ ⟨a3, e3⟩ ⟨a4, e4⟩ ⟨a5, e5⟩ ⟨a6, e6⟩
    unfold async_update_data
    rw [e1, e2, e3, e4, e5, e6]
    exact ⟨_, rfl⟩

/-- Witness for C7: over fetchExample (all core fetches succeed, the
vitals fetches fail, the right sleep fetch fails) the produced snapshot
has an empty left vitals summary and an absent right sleep record. -/
theorem refresh_partial_failure_tolerance_witness :
    lookupKey snapshotExample.vitals_summary "left" = some (.obj []) ∧
    lookupKey snapshotExample.last_sleep "right" = some none := by
  have h := (refresh_partial_failure_tolerance fetchExample).2.1
    snapshotExample rfl
  exact ⟨(h "left" (by simp [SIDES])).1 .attributeError rfl,
         (h "right" (by simp [SIDES])).2.2 .attributeError rfl⟩

/-- Counterexample to C8 as stated: fetch results in which the five
required fetches succeed and only the server-health fetch fails; the
refresh fails wholesale with UpdateFailed instead of producing a snapshot
with absent health data, because get_server_status sits in the same
gathered batch whose FreeSleepApiError aborts the cycle. -/
theorem server_health_failure_fails_cycle_cex :
    async_update_data fetchServerFail = .error .updateFailed := rfl

/-- C8 (amended): the server-health fetch is a sixth required fetch: any
refresh cycle in which it fails produces no snapshot and fails with
UpdateFailed, exactly like the five required resources; only the per-side
vitals and sleep fetches are optional. -/
theorem server_health_fetch_required (fr : FetchResults) (e : ApiErr)
    (h : fr.server_status = .error e) :
    async_update_data fr = .error .updateFailed := by
  unfold async_update_data
  split
  · rename_i ds st pr sc sv ss hds hst hpr hsc hsv hss
    rw [h] at hss
    exact Except.noConfusion hss
  · rfl

/-- Witness for C8 (amended): a transport failure of the server-health
fetch alone fails the cycle. -/
theorem server_health_fetch_required_witness :
    async_update_data fetchServerFailConn = .error .updateFailed :=
  server_health_fetch_required fetchServerFailConn .connectionError rfl

/-- C9: when the sleep fetch for a side succeeds with a list of records,
the produced snapshot retains exactly the last element of that list as
the side's most recent completed sleep record, and the empty list yields
an absent record rather than an error. -/
theorem last_sleep_selection (fr : FetchResults) (side : String)
    (recs : List JVal) (d : FreeSleepData)
    (hside : side ∈ SIDES) (hrecs : fr.sleep side = .ok recs)
    (hok : async_update_data fr = .ok d) :
    lookupKey d.last_sleep side = some recs.getLast? ∧
    (recs = [] → lookupKey d.last_sleep side = some none) := by
  have main : lookupKey d.last_sleep side = some recs.getLast? := by
    unfold async_update_data at hok
    split at hok
    · rename_i ds st pr sc sv ss hds hst hpr hsc hsv hss
      injection hok with hd2
      subst hd2
      simp only [SIDES, List.mem_cons, List.not_mem_nil, or_false] at hside
      rcases hside with hl | hr
      · subst hl
        simp [SIDES, lookupKey_cons, hrecs]
      · subst hr
        simp [SIDES, lookupKey_cons, hrecs]
    · exact Except.noConfusion hok
  exact ⟨main, fun he => by rw [main, he]; rfl⟩

/-- Witness for C9: of the two left-side sleep records of fetchExample the
snapshot keeps the second (most recent) one. -/
theorem last_sleep_selection_witness :
    lookupKey snapshotExample.last_sleep "left" =
      some (some (.obj [("id", .num 2)])) := by
  have h := last_sleep_selection fetchExample "left"
    [.obj [("id", .num 1)], .obj [("id", .num 2)]] snapshotExample
    (by simp [SIDES]) rfl rfl
  rw [h.1]
  rfl

/-- C10: every read accessor is total over snapshots whose resource maps
lack the relevant keys and returns its documented default: side_status
and today_alarm give the empty record, water_level the string unknown,
side_last_sleep is absent, side_vitals_summary is the empty record, gain
is 100, seconds_remaining is 0, and server_service_status gives the empty
record; no accessor raises. -/
theorem accessors_default_on_missing (side name : String) (now : LocalDT)
    (dsl stl prl scl svl ssl vsl : List (String × JVal))
    (lsl : List (String × Option JVal))
    (h1 : lookupKey dsl side = none)
    (h2 : lookupKey dsl "waterLevel" = none)
    (h3 : lookupKey dsl "settings" = none)
    (h4 : lookupKey scl side = none)
    (h5 : lookupKey vsl side = none)
    (h6 : lookupKey lsl side = none)
    (h7 : lookupKey ssl name = none) :
    (mkData dsl stl prl scl svl ssl vsl lsl).side_status side = .ok (.obj []) ∧
    (mkData dsl stl prl scl svl ssl vsl lsl).water_level = .ok (.str "unknown") ∧
    (mkData dsl stl prl scl svl ssl vsl lsl).today_alarm now side = .ok (.obj []) ∧
    (mkData dsl stl prl scl svl ssl vsl lsl).side_last_sleep side = none ∧
    (mkData dsl stl prl scl svl ssl vsl lsl).side_vitals_summary side = .obj [] ∧
    (mkData dsl stl prl scl svl ssl vsl lsl).gain side = .ok (.num 100) ∧
    (mkData dsl stl prl scl svl ssl vsl lsl).seconds_remaining side = .ok (.num 0) ∧
    (mkData dsl stl prl scl svl ssl vsl lsl).server_service_status name = .ok (.obj []) := by
  refine ⟨?_, ?_, ?_, ?_, ?_, ?_, ?_, ?_⟩
  · simp [mkData, FreeSleepData.side_status, JVal.getD, h1]
  · simp [mkData, FreeSleepData.water_level, JVal.getD, h2]
  · simp [mkData, FreeSleepData.today_alarm, JVal.getD, h4, ok_bind, lookupKey_nil]
  · simp [mkData, FreeSleepData.side_last_sleep, h6]
  · simp [mkData, FreeSleepData.side_vitals_summary, h5]
  · simp [mkData, FreeSleepData.gain, JVal.getD, h3, ok_bind, lookupKey_nil]
  · simp [mkData, FreeSleepData.seconds_remaining, FreeSleepData.side_status,
      JVal.getD, h1, ok_bind, lookupKey_nil]
  · simp [mkData, FreeSleepData.server_service_status, JVal.getD, h7]

/-- Witness for C10 at the fully empty snapshot with an arbitrary side
string. -/
theorem accessors_default_on_missing_witness :
    (mkData [] [] [] [] [] [] [] []).gain "left" = .ok (.num 100) ∧
    (mkData [] [] [] [] [] [] [] []).water_level = .ok (.str "unknown") := by
  have h := accessors_default_on_missing "left" "srv"
    { days := 0, hour := 0, minute := 0 } [] [] [] [] [] [] [] []
    rfl rfl rfl rfl rfl rfl rfl
  exact ⟨h.2.2.2.2.2.1, h.2.1⟩

end FreeSleep
